import Mathlib

/-!
Verification of the Ledger & Budget Analytics Engine of
`src/expense_note_llm.py` (a single-file Streamlit expense ledger backed
by SQLite), against its natural-language specification.

Shallow embedding conventions:
* SQLite tables become Lean lists of records inside a `DB` structure.
* Monetary amounts (SQLite `REAL`, Python ints/floats) are modelled as `ℚ`.
* Calendar dates are modelled two ways, matching what each piece of code
  actually uses: the `지난 달` (last-month) branch of `get_date_range`
  needs calendar structure, so it uses a year/month/day `Date` record with
  the Gregorian month lengths that Python's `datetime` implements; the
  custom-range branch and the daily-average computation only compare dates
  and subtract whole days, so there dates are day ordinals (`Int`, days
  since an arbitrary epoch).
* `st.error`/`st.success` reporting is modelled as a returned `Bool` flag.
-/

namespace ExpenseNote

/-- A row of the `categories` table: `id`, `name` (UNIQUE), `budget`
(REAL, default 0), `color`. -/
structure Category where
  id : Nat
  name : String
  budget : ℚ
  color : String
deriving DecidableEq, Repr

/-- A row of the `subcategories` table: `id`, `category_id`, `name`. -/
structure Subcategory where
  id : Nat
  category_id : Nat
  name : String
deriving DecidableEq, Repr

/-- A row of the `expenses` table (the `created_at` timestamp plays no
role in any claim and is omitted): `id`, `date` (ISO `YYYY-MM-DD` text),
`category_id`, nullable `subcategory_id`, `amount`, `description`,
`payment_method`, `is_fixed_expense`. -/
structure Expense where
  id : Nat
  date : String
  category_id : Nat
  subcategory_id : Option Nat
  amount : ℚ
  description : String
  payment_method : String
  is_fixed_expense : Bool
deriving DecidableEq, Repr

/-- The persisted state: the three SQLite tables. -/
structure DB where
  categories : List Category
  subcategories : List Subcategory
  expenses : List Expense
deriving DecidableEq, Repr

def emptyDB : DB := ⟨[], [], []⟩

/-! ## `delete_expense` (source lines 225-233)

`DELETE FROM expenses WHERE id = ?` removes every row whose id matches
(ids are the primary key, so at most one), then `st.success` is shown
unconditionally; the function reports success whether or not any row
matched.  The returned `Bool` is the success flag. -/

def delete_expense (db : DB) (expense_id : Nat) : DB × Bool :=
  ({ db with expenses := db.expenses.filter (fun e => e.id ≠ expense_id) }, true)

/-! ## `add_expense` (source lines 209-222)

A bare `INSERT INTO expenses ...`: no validation of the amount and no
referential check of `category_id`/`subcategory_id` (SQLite foreign keys
are not enabled, so a dangling reference inserts fine).  Returns `True`
on success.  The new row's id is modelled as one past the current maximum
(AUTOINCREMENT). -/

def nextExpenseId (db : DB) : Nat :=
  (db.expenses.map Expense.id).foldr max 0 + 1

def add_expense (db : DB) (date : String) (category_id : Nat)
    (subcategory_id : Option Nat) (amount : ℚ) (description : String)
    (payment_method : String) (is_fixed : Bool) : DB × Bool :=
  ({ db with expenses := db.expenses ++
      [⟨nextExpenseId db, date, category_id, subcategory_id, amount,
        description, payment_method, is_fixed⟩] }, true)

/-! ## The expense form in `main` (source lines 307-320)

The amount text field is parsed with
`int(amount_str.replace(",", "")) if amount_str else 0`, with a
`ValueError` handler that sets the amount to 0; on submit, `amount <= 0`
shows an error and stores nothing, otherwise `add_expense` runs.  The
returned `Bool` says whether a record was stored. -/

/-- The numeric value of a digit string, `none` when empty or when any
character is not a decimal digit — the cases where Python's `int()`
raises `ValueError`. -/
def digitsVal (cs : List Char) : Option Nat :=
  if cs = [] then none
  else cs.foldl (fun acc c =>
    match acc with
    | some n => if c.isDigit then some (n * 10 + (c.toNat - 48)) else none
    | none => none) (some 0)

/-- Python's `int(str)` on a comma-free string: an optional sign followed
by at least one digit, `none` where `int()` raises `ValueError`.
(Python also tolerates surrounding whitespace and underscores between
digits; those inputs play no role in any claim.) -/
def py_int (cs : List Char) : Option Int :=
  match cs with
  | '-' :: rest => (digitsVal rest).map (fun n => -(n : Int))
  | '+' :: rest => (digitsVal rest).map (fun n => (n : Int))
  | _ => (digitsVal cs).map (fun n => (n : Int))

def parse_amount (amount_str : String) : Int :=
  if amount_str.data = [] then 0
  else match py_int (amount_str.data.filter (fun ch => ch ≠ ',')) with
    | some n => n
    | none => 0

def submit_expense (db : DB) (date : String) (category_id : Nat)
    (subcategory_id : Option Nat) (amount_str : String)
    (description : String) (payment_method : String) (is_fixed : Bool) :
    DB × Bool :=
  let amount := parse_amount amount_str
  if amount ≤ 0 then (db, false)
  else add_expense db date category_id subcategory_id (amount : ℚ)
    description payment_method is_fixed

/-! ## `get_date_range` (source lines 237-264)

The `사용자 지정` (custom) branch, dates as day ordinals: if
`start_date > end_date` an error is shown and the bounds are replaced by
`(today - timedelta(days=30), today)`.  The `Bool` is the
error-was-shown flag. -/

def get_date_range_custom (today start_date end_date : Int) :
    (Int × Int) × Bool :=
  if start_date > end_date then ((today - 30, today), true)
  else ((start_date, end_date), false)

/-! ## Daily average (source lines 356-358)

`days_count = (end - start).days + 1`;
`avg_daily = total / days_count if days_count > 0 else 0`. -/

def days_count (start_date end_date : Int) : Int :=
  end_date - start_date + 1

def avg_daily (total_expense : ℚ) (start_date end_date : Int) : ℚ :=
  if days_count start_date end_date > 0 then
    total_expense / (days_count start_date end_date : ℚ)
  else 0

/-! ## Column layouts (source lines 184-200, 268, 427, 470)

`get_expenses` selects ten columns in a fixed order; `convert_df_to_csv`
is `df.to_csv(index=False)`, which serializes the frame's columns
unchanged; the on-screen tables at lines 427 and 470 project the same
seven columns in the same order. -/

def get_expenses_columns : List String :=
  ["id", "date", "amount", "description", "payment_method",
   "is_fixed_expense", "category", "color", "budget", "subcategory"]

def convert_df_to_csv_columns (df_columns : List String) : List String :=
  df_columns

def csv_export_columns : List String :=
  convert_df_to_csv_columns get_expenses_columns

def display_table_columns : List String :=
  ["id", "date", "category", "subcategory", "amount", "description",
   "payment_method"]

def delete_table_columns : List String :=
  ["id", "date", "category", "subcategory", "amount", "description",
   "payment_method"]

/-! ## Calendar dates for the `지난 달` (last-month) branch

Python's `datetime` implements the proleptic Gregorian calendar; month
lengths and leap years are embedded here.  `today.replace(day=1)` keeps
year and month; `- timedelta(days=1)` on the first of a month lands on
the last day of the previous month. -/

def isLeap (y : Int) : Bool :=
  (y % 4 == 0 && y % 100 != 0) || (y % 400 == 0)

def daysInMonth (y : Int) (m : Nat) : Nat :=
  if m = 2 then (if isLeap y then 29 else 28)
  else if m = 4 ∨ m = 6 ∨ m = 9 ∨ m = 11 then 30
  else 31

structure Date where
  year : Int
  month : Nat
  day : Nat
deriving DecidableEq, Repr

def Date.Valid (d : Date) : Prop :=
  1 ≤ d.month ∧ d.month ≤ 12 ∧ 1 ≤ d.day ∧ d.day ≤ daysInMonth d.year d.month

instance (d : Date) : Decidable d.Valid := by
  unfold Date.Valid; infer_instance

/-- One day before `d` (the effect of `- timedelta(days=1)`). -/
def predDay (d : Date) : Date :=
  if 1 < d.day then ⟨d.year, d.month, d.day - 1⟩
  else if d.month = 1 then ⟨d.year - 1, 12, daysInMonth (d.year - 1) 12⟩
  else ⟨d.year, d.month - 1, daysInMonth d.year (d.month - 1)⟩

/-- The `지난 달` branch of `get_date_range` (source lines 242-245):
`last_month_end = today.replace(day=1) - timedelta(days=1)`;
`start_date = last_month_end.replace(day=1)`; `end_date = last_month_end`. -/
def get_date_range_last_month (today : Date) : Date × Date :=
  let last_month_end := predDay ⟨today.year, today.month, 1⟩
  (⟨last_month_end.year, last_month_end.month, 1⟩, last_month_end)

/-! ## `init_db` seeding (source lines 67-114)

Table creation and the `ALTER TABLE` migration are schema setup with no
row-level effect and are not modelled.  The seeding part: if
`SELECT COUNT(*) FROM categories` is 0, insert the twelve default
categories (each wrapped in a `try/except sqlite3.IntegrityError: pass`,
which skips a row whose UNIQUE name already exists); then, if
`SELECT COUNT(*) FROM subcategories` is 0, for each default
category-name/subcategory-names pair look the category id up by name and
insert the subcategories under it (pairs whose name is absent are
skipped).  Fresh ids are modelled as successive list positions, which
coincides with AUTOINCREMENT on the empty tables this branch runs on. -/

def default_categories : List (String × ℚ × String) :=
  [("주거비", 500000, "#FF6B6B"),
   ("대출이자", 200000, "#4ECDC4"),
   ("통신비", 800000, "#45B7D1"),
   ("교통비", 100000, "#96CEB4"),
   ("보험료", 200000, "#D4A5A5"),
   ("주택청약", 300000, "#9B89B3"),
   ("적금", 400000, "#FAD02E"),
   ("생활비", 200000, "#95A5A6"),
   ("구독료", 150000, "#E59866"),
   ("회비", 50000, "#A29BFE"),
   ("투자", 700000, "#6C5B7B"),
   ("기타", 100000, "#B8B8B8")]

def default_subcategories : List (String × List String) :=
  [("주거비", ["관리비", "전기세", "수도세", "난방비"]),
   ("대출이자", ["전세대출", "기타대출"]),
   ("통신비", ["인터넷", "핸드폰", "TV"]),
   ("교통비", ["지하철", "버스", "렌트카", "택시", "주유"]),
   ("보험료", ["지성 보험료", "승미 보험료"]),
   ("주택청약", ["청약통장"]),
   ("적금", ["은행적금", "개인연금"]),
   ("생활비", ["식비", "식료품 구매", "외식", "기타 생활비"]),
   ("구독료", ["넷플릭스", "유튜브 프리미엄", "음악 서비스", "기타 구독료"]),
   ("회비", ["동호회 회비", "가족 회비", "기타 회비"]),
   ("투자", ["주식", "가상자산", "펀드", "기타 투자"]),
   ("기타", ["기타"])]

def seedCategories (cats : List Category) : List Category :=
  default_categories.foldl
    (fun acc entry =>
      if acc.any (fun c => c.name = entry.1) then acc
      else acc ++ [⟨acc.length + 1, entry.1, entry.2.1, entry.2.2⟩])
    cats

def seedSubcategories (cats : List Category) (subs : List Subcategory) :
    List Subcategory :=
  default_subcategories.foldl
    (fun acc entry =>
      match cats.find? (fun c => c.name = entry.1) with
      | some c =>
          entry.2.foldl (fun acc2 nm => acc2 ++ [⟨acc2.length + 1, c.id, nm⟩]) acc
      | none => acc)
    subs

/-- The data effect of `init_db` (source lines 67-114). -/
def init_db (db : DB) : DB :=
  let cats :=
    if db.categories.length = 0 then seedCategories db.categories
    else db.categories
  let subs :=
    if db.subcategories.length = 0 then seedSubcategories cats db.subcategories
    else db.subcategories
  { db with categories := cats, subcategories := subs }

/-! ## `get_expenses` (source lines 181-206)

The SQL query joins `expenses` to `categories` with an inner `JOIN` on
`e.category_id = c.id` and to `subcategories` with a `LEFT JOIN` on
`e.subcategory_id = s.id`, projects the ten columns of
`get_expenses_columns`, and orders by `e.date DESC`.  SQL `NULL = s.id`
is never true, so a record with a null `subcategory_id` matches no
subcategory row and the left join pads its `subcategory` column with
NULL (`Option.none` here). -/

structure Row where
  id : Nat
  date : String
  amount : ℚ
  description : String
  payment_method : String
  is_fixed_expense : Bool
  category : String
  color : String
  budget : ℚ
  subcategory : Option String
deriving DecidableEq, Repr

def mkRow (e : Expense) (c : Category) (sub : Option String) : Row :=
  ⟨e.id, e.date, e.amount, e.description, e.payment_method,
   e.is_fixed_expense, c.name, c.color, c.budget, sub⟩

/-- The `subcategory` column values the LEFT JOIN produces for one
expense record: one `none` when `subcategory_id` is NULL (SQL
`NULL = s.id` never holds) or matches no subcategory row, otherwise the
names of the matching rows. -/
def subJoin (db : DB) (e : Expense) : List (Option String) :=
  match e.subcategory_id with
  | none => [none]
  | some sid =>
    match db.subcategories.filter (fun s => s.id = sid) with
    | [] => [none]
    | ms => ms.map (fun s => some s.name)

/-- The rows the FROM/JOIN clauses produce for one expense record: one
per matching category (the inner join) and LEFT-JOIN subcategory value. -/
def joinRows (db : DB) (e : Expense) : List Row :=
  (db.categories.filter (fun c => c.id = e.category_id)).flatMap
    (fun c => (subJoin db e).map (mkRow e c))

/-- The unordered result of the `get_expenses` query. -/
def sqlJoin (db : DB) : List Row :=
  db.expenses.flatMap (joinRows db)

/-- `get_expenses`: the join result ordered by `date` descending. -/
def get_expenses (db : DB) : List Row :=
  (sqlJoin db).insertionSort (fun a b => b.date ≤ a.date)

/-! ## Aggregation over the filtered frame (source lines 356, 370, 407)

`filtered_df["amount"].sum()`, `filtered_df.groupby("category")["amount"].sum()`
and `filtered_df.groupby("payment_method")["amount"].sum()`.  A pandas
groupby-sum maps each key present in the frame (and only those) to the
sum of the group's amounts; key order does not matter to any claim, so
groups are listed in first-appearance order. -/

def groupKeys (rows : List Row) (key : Row → String) : List String :=
  (rows.map key).dedup

def groupSum (rows : List Row) (key : Row → String) (k : String) : ℚ :=
  ((rows.filter (fun r => key r = k)).map Row.amount).sum

def total_expense (rows : List Row) : ℚ :=
  (rows.map Row.amount).sum

def cat_spending (rows : List Row) : List (String × ℚ) :=
  (groupKeys rows Row.category).map
    (fun k => (k, groupSum rows Row.category k))

def payment_spending (rows : List Row) : List (String × ℚ) :=
  (groupKeys rows Row.payment_method).map
    (fun k => (k, groupSum rows Row.payment_method k))

/-! ## `budget_vs_spending` (source lines 380-385)

One row per category appearing in `cat_spending` — every category
present in the filtered frame, with no condition on its budget — holding
`(category, spent, budget, usage_rate)` where the budget is looked up by
name in the categories table and
`usage_rate = spent / budget * 100` with no guard (pandas returns `inf`
when the budget is 0; in this `ℚ` model division by zero yields 0 — the
claims below are settled on membership, never on the value at a zero
budget). -/

def budgetLookup (cats : List Category) (nm : String) : ℚ :=
  match cats.find? (fun c => c.name = nm) with
  | some c => c.budget
  | none => 0

def budget_vs_spending (rows : List Row) (cats : List Category) :
    List (String × ℚ × ℚ × ℚ) :=
  (cat_spending rows).map
    (fun entry =>
      let budget := budgetLookup cats entry.1
      (entry.1, entry.2, budget, entry.2 / budget * 100))

/-! # Theorems for the claims -/

/-- C1: the spec requires that resolving a custom period with
`customStart > customEnd` fail with `ValidationError` and return no
swapped or fallback range.  The code instead shows the error and then
substitutes exactly the fixed 30-day window ending today: at
`today = 0`, `customStart = 31`, `customEnd = 0` (day ordinals; the
start is 31 days after the end, mirroring 2024-02-01 vs 2024-01-01) the
resolver returns the range `(today - 30, today)` together with the
shown-error flag. -/
theorem get_date_range_custom_inverted_falls_back :
    get_date_range_custom 0 31 0 = ((-30, 0), true) := by decide

/-- C3 counterexample: the downloadable CSV export and the on-screen
flat table are not built from the same columns in the same order — the
CSV carries the full ten-column query layout of `get_expenses`, the
screen tables a seven-column projection. -/
theorem csv_columns_ne_display_columns :
    csv_export_columns ≠ display_table_columns := by decide

/-- C3 (amended): both on-screen tables project the same fixed seven
columns (id, date, category, subcategory, amount, description, payment
method), but the CSV export serializes the full ten-column
`get_expenses` result (id, date, amount, description, payment_method,
is_fixed_expense, category, color, budget, subcategory); the display
columns are all present in the export, yet the two surfaces diverge in
column set and ordering. -/
theorem display_and_csv_columns :
    display_table_columns =
      ["id", "date", "category", "subcategory", "amount", "description",
       "payment_method"] ∧
    delete_table_columns = display_table_columns ∧
    csv_export_columns = get_expenses_columns ∧
    (display_table_columns.all (fun c => csv_export_columns.contains c)) = true ∧
    csv_export_columns ≠ display_table_columns := by decide

/-- C4 counterexample: deleting an id that exists in no expense record
does not fail with `NotFoundError`; on the empty store, deleting id 1
leaves the store unchanged and still reports success. -/
theorem delete_expense_missing_id_reports_success :
    delete_expense emptyDB 1 = (emptyDB, true) := by decide

/-- C4 (amended): `delete_expense` removes exactly the records carrying
the given id (the primary key, so at most one) and reports success
unconditionally; when no record with that id exists it is a no-op — the
stored record set is unchanged — but no `NotFoundError` is raised. -/
theorem delete_expense_spec (db : DB) (eid : Nat) :
    (delete_expense db eid).2 = true ∧
    (∀ e, e ∈ (delete_expense db eid).1.expenses ↔
      e ∈ db.expenses ∧ e.id ≠ eid) ∧
    ((∀ e ∈ db.expenses, e.id ≠ eid) → (delete_expense db eid).1 = db) ∧
    (delete_expense db eid).1.categories = db.categories ∧
    (delete_expense db eid).1.subcategories = db.subcategories := by
  refine ⟨rfl, ?_, ?_, rfl, rfl⟩
  · intro e
    simp [delete_expense, List.mem_filter]
  · intro h
    show ({ db with
      expenses := db.expenses.filter (fun e => e.id ≠ eid) } : DB) = db
    have hf : db.expenses.filter (fun e => e.id ≠ eid) = db.expenses := by
      rw [List.filter_eq_self]
      intro e he
      simpa using h e he
    rw [hf]

/-- C4 witness: the not-found branch of `delete_expense_spec` at a
concrete one-record store and an absent id. -/
theorem delete_expense_spec_witness :
    (delete_expense
      ⟨[], [], [⟨1, "2024-01-05", 1, none, 100, "", "현금", false⟩]⟩ 2).1 =
      ⟨[], [], [⟨1, "2024-01-05", 1, none, 100, "", "현금", false⟩]⟩ :=
  (delete_expense_spec
    ⟨[], [], [⟨1, "2024-01-05", 1, none, 100, "", "현금", false⟩]⟩ 2).2.2.1
    (by decide)

/-- C5 counterexample: `add_expense` performs no referential
validation — on the empty store (which has no category with id 999 and
no subcategory with id 7) it still reports success and stores the
record, instead of failing with `ValidationError` and storing nothing. -/
theorem add_expense_dangling_refs_accepted :
    emptyDB.categories = [] ∧
    (add_expense emptyDB "2024-01-01" 999 (some 7) 100 "" "현금" false).2
      = true ∧
    (add_expense emptyDB "2024-01-01" 999 (some 7) 100 "" "현금" false).1.expenses
      = [⟨1, "2024-01-01", 999, some 7, 100, "", "현금", false⟩] := by decide

/-- C5 (amended): the form-level flow rejects a non-positive amount and
stores nothing, and an unparsable amount string is parsed as 0 and hence
rejected (never accepted); but no referential validation exists — when
the parsed amount is positive the record is stored for arbitrary
`category_id`/`subcategory_id` values, whether or not they reference
existing rows. -/
theorem submit_expense_spec (db : DB) (date : String) (cid : Nat)
    (sid : Option Nat) (amount_str : String) (descr pm : String)
    (fx : Bool) :
    (parse_amount amount_str ≤ 0 →
      submit_expense db date cid sid amount_str descr pm fx = (db, false)) ∧
    (py_int (amount_str.data.filter (fun ch => ch ≠ ',')) = none →
      submit_expense db date cid sid amount_str descr pm fx = (db, false)) ∧
    (0 < parse_amount amount_str →
      (submit_expense db date cid sid amount_str descr pm fx).2 = true ∧
      (submit_expense db date cid sid amount_str descr pm fx).1.expenses =
        db.expenses ++ [⟨nextExpenseId db, date, cid, sid,
          ((parse_amount amount_str : Int) : ℚ), descr, pm, fx⟩]) := by
  refine ⟨?_, ?_, ?_⟩
  · intro h
    simp [submit_expense, h]
  · intro h
    have hz : parse_amount amount_str ≤ 0 := by
      unfold parse_amount
      split
      · exact le_refl 0
      · rw [h]
    simp [submit_expense, hz]
  · intro h
    have hnz : ¬ parse_amount amount_str ≤ 0 := by omega
    simp [submit_expense, hnz, add_expense]

/-- C5 witness: `submit_expense_spec` at the unparsable amount string
`"abc"` — the store is unchanged and no success is reported. -/
theorem submit_expense_spec_witness :
    submit_expense emptyDB "2024-01-01" 1 none "abc" "" "현금" false =
      (emptyDB, false) :=
  (submit_expense_spec emptyDB "2024-01-01" 1 none "abc" "" "현금"
    false).2.1 (by decide)

/-- C7: for every total and every resolved period `[start, end]` of day
ordinals with `start ≤ end`, `days_count` is the inclusive number of
calendar days spanned (never below 1) and the daily average is the total
divided by it. -/
theorem avg_daily_spec (total : ℚ) (s e : Int) (h : s ≤ e) :
    1 ≤ days_count s e ∧
    days_count s e = e - s + 1 ∧
    avg_daily total s e = total / ((e - s + 1 : Int) : ℚ) := by
  refine ⟨by unfold days_count; omega, rfl, ?_⟩
  unfold avg_daily
  rw [if_pos (by unfold days_count; omega)]
  rfl

/-- C7 witness: a full January period (ordinals 0 through 30,
`today = 2024-01-31`): the divisor is 31 and the daily average of a
350000 total is 350000/31. -/
theorem avg_daily_spec_witness :
    1 ≤ days_count 0 30 ∧
    days_count 0 30 = 30 - 0 + 1 ∧
    avg_daily 350000 0 30 = 350000 / (((30 : Int) - 0 + 1 : Int) : ℚ) :=
  avg_daily_spec 350000 0 30 (by decide)

lemma daysInMonth_pos (y : Int) (m : Nat) : 1 ≤ daysInMonth y m := by
  unfold daysInMonth
  split
  · split <;> omega
  · split <;> omega

lemma Date.valid_mk (y : Int) (m d : Nat) (h1 : 1 ≤ m) (h2 : m ≤ 12)
    (h3 : 1 ≤ d) (h4 : d ≤ daysInMonth y m) : Date.Valid ⟨y, m, d⟩ :=
  ⟨h1, h2, h3, h4⟩

/-- C9: for every valid `today`, the `지난 달` branch returns as end the
last day of the month immediately before `today`'s month (December of
the previous year when `today` is in January) and as start the first day
of that same month; both bounds are valid dates. -/
theorem get_date_range_last_month_spec (today : Date) (h : today.Valid) :
    (today.month = 1 →
      (get_date_range_last_month today).2.year = today.year - 1 ∧
      (get_date_range_last_month today).2.month = 12) ∧
    (today.month ≠ 1 →
      (get_date_range_last_month today).2.year = today.year ∧
      (get_date_range_last_month today).2.month = today.month - 1) ∧
    (get_date_range_last_month today).2.day =
      daysInMonth (get_date_range_last_month today).2.year
        (get_date_range_last_month today).2.month ∧
    (get_date_range_last_month today).1 =
      ⟨(get_date_range_last_month today).2.year,
       (get_date_range_last_month today).2.month, 1⟩ ∧
    (get_date_range_last_month today).1.Valid ∧
    (get_date_range_last_month today).2.Valid := by
  obtain ⟨hm1, hm12, -, -⟩ := h
  have hresult : get_date_range_last_month today =
      if today.month = 1 then
        (⟨today.year - 1, 12, 1⟩,
         ⟨today.year - 1, 12, daysInMonth (today.year - 1) 12⟩)
      else
        (⟨today.year, today.month - 1, 1⟩,
         ⟨today.year, today.month - 1,
          daysInMonth today.year (today.month - 1)⟩) := by
    unfold get_date_range_last_month predDay
    by_cases hm : today.month = 1 <;> simp [hm]
  by_cases hm : today.month = 1
  · rw [hresult, if_pos hm]
    refine ⟨fun _ => ⟨rfl, rfl⟩, fun hc => absurd hm hc, rfl, rfl, ?_, ?_⟩
    · exact Date.valid_mk _ _ _ (by omega) (by omega) (by omega)
        (daysInMonth_pos (today.year - 1) 12)
    · exact Date.valid_mk _ _ _ (by omega) (by omega)
        (daysInMonth_pos (today.year - 1) 12) (le_refl _)
  · rw [hresult, if_neg hm]
    refine ⟨fun hc => absurd hc hm, fun _ => ⟨rfl, rfl⟩, rfl, rfl, ?_, ?_⟩
    · exact Date.valid_mk _ _ _ (by omega) (by omega) (by omega)
        (daysInMonth_pos today.year (today.month - 1))
    · exact Date.valid_mk _ _ _ (by omega) (by omega)
        (daysInMonth_pos today.year (today.month - 1)) (le_refl _)

/-- C9 witness: `get_date_range_last_month_spec` across the year
boundary at `today = 2024-01-15`: the resolved range is
2023-12-01 through 2023-12-31. -/
theorem get_date_range_last_month_spec_witness :
    Date.Valid ⟨2024, 1, 15⟩ ∧
    get_date_range_last_month ⟨2024, 1, 15⟩ =
      (⟨2023, 12, 1⟩, ⟨2023, 12, 31⟩) := by
  refine ⟨by decide, ?_⟩
  have h := get_date_range_last_month_spec ⟨2024, 1, 15⟩ (by decide)
  obtain ⟨h1, -, hday, hstart, -, -⟩ := h
  obtain ⟨hy, hmo⟩ := h1 rfl
  have he : (get_date_range_last_month ⟨2024, 1, 15⟩).2 = ⟨2023, 12, 31⟩ := by
    have : daysInMonth 2023 12 = 31 := by decide
    cases hr : (get_date_range_last_month ⟨2024, 1, 15⟩).2
    rw [hr] at hy hmo hday
    simp only at hy hmo hday
    subst hy hmo
    simp [hday, this]
  have hs : (get_date_range_last_month ⟨2024, 1, 15⟩).1 = ⟨2023, 12, 1⟩ := by
    rw [hstart, he]
  calc get_date_range_last_month ⟨2024, 1, 15⟩
      = ((get_date_range_last_month ⟨2024, 1, 15⟩).1,
         (get_date_range_last_month ⟨2024, 1, 15⟩).2) := rfl
    _ = (⟨2023, 12, 1⟩, ⟨2023, 12, 31⟩) := by rw [he, hs]

/-- C2 counterexample: a category whose budget ceiling is 0 is not
excluded from the budget-utilization computation — with a single 1000
expense in the zero-ceiling category `기타`, `budget_vs_spending` still
reports a row for `기타` (where pandas evaluates the unguarded
`spent / budget * 100` to infinity). -/
theorem budget_vs_spending_zero_ceiling_included :
    budgetLookup [⟨12, "기타", 0, "#B8B8B8"⟩] "기타" = 0 ∧
    ((budget_vs_spending
        [⟨1, "2024-01-05", 1000, "", "현금", false, "기타", "#B8B8B8", 0, none⟩]
        [⟨12, "기타", 0, "#B8B8B8"⟩]).map (fun x => x.1)) = ["기타"] := by
  constructor
  · rfl
  · rfl

/-- C2 (amended): `budget_vs_spending` computes
`spent / budget * 100` unguarded for every category present in the
filtered record set, with no condition on the ceiling — zero-ceiling
categories are included (pandas reports an infinite rate for them), not
excluded as untracked. -/
theorem budget_vs_spending_spec (rows : List Row) (cats : List Category) :
    (budget_vs_spending rows cats).map (fun x => x.1) =
      (rows.map Row.category).dedup ∧
    ∀ entry ∈ budget_vs_spending rows cats,
      entry.2.2.2 = entry.2.1 / entry.2.2.1 * 100 ∧
      entry.2.1 = groupSum rows Row.category entry.1 ∧
      entry.2.2.1 = budgetLookup cats entry.1 := by
  constructor
  · simp [budget_vs_spending, cat_spending, groupKeys, List.map_map,
      Function.comp_def]
  · intro entry hentry
    simp only [budget_vs_spending, cat_spending, List.map_map,
      List.mem_map, Function.comp] at hentry
    obtain ⟨k, -, hk⟩ := hentry
    subst hk
    exact ⟨rfl, rfl, rfl⟩

/-- C2 witness: `budget_vs_spending_spec` at a concrete two-category
record set — the reported categories are exactly those present in the
set. -/
theorem budget_vs_spending_spec_witness :
    (budget_vs_spending
        [⟨1, "2024-01-05", 100, "", "현금", false, "생활비", "#95A5A6", 200000, none⟩,
         ⟨2, "2024-01-06", 50, "", "현금", false, "교통비", "#96CEB4", 100000, none⟩]
        [⟨4, "교통비", 100000, "#96CEB4"⟩, ⟨8, "생활비", 200000, "#95A5A6"⟩]).map
      (fun x => x.1) =
      (([⟨1, "2024-01-05", 100, "", "현금", false, "생활비", "#95A5A6", 200000, none⟩,
         ⟨2, "2024-01-06", 50, "", "현금", false, "교통비", "#96CEB4", 100000, none⟩] :
        List Row).map Row.category).dedup :=
  (budget_vs_spending_spec _ _).1

lemma sum_map_add_distrib {K : Type} (l : List K) (f g : K → ℚ) :
    (l.map (fun k => f k + g k)).sum = (l.map f).sum + (l.map g).sum := by
  induction l with
  | nil => simp
  | cons a t ih => simp [ih]; ring

lemma sum_map_single {K : Type} [DecidableEq K] (keys : List K) (k0 : K)
    (v : ℚ) (hnd : keys.Nodup) (hmem : k0 ∈ keys) :
    (keys.map (fun k => if k0 = k then v else 0)).sum = v := by
  induction keys with
  | nil => cases hmem
  | cons k ks ih =>
    obtain ⟨hk, hks⟩ := List.nodup_cons.mp hnd
    rcases List.mem_cons.mp hmem with h0 | h0
    · have hz : ((ks.map (fun x => if k0 = x then v else 0)).sum) = 0 := by
        apply List.sum_eq_zero
        intro y hy
        obtain ⟨x, hx, hxy⟩ := List.mem_map.mp hy
        have hne : k0 ≠ x := by
          intro hc
          rw [h0] at hc
          rw [hc] at hk
          exact hk hx
        rw [if_neg hne] at hxy
        exact hxy.symm
      rw [List.map_cons, List.sum_cons, if_pos h0, hz, add_zero]
    · have hne : k0 ≠ k := by
        intro hc
        rw [hc] at h0
        exact hk h0
      rw [List.map_cons, List.sum_cons, if_neg hne, ih hks h0, zero_add]

lemma sum_over_groups (rows : List Row) (key : Row → String)
    (keys : List String) (hnd : keys.Nodup)
    (hcov : ∀ r ∈ rows, key r ∈ keys) :
    (keys.map (fun k =>
      ((rows.filter (fun r => key r = k)).map Row.amount).sum)).sum =
      (rows.map Row.amount).sum := by
  induction rows with
  | nil =>
    simp only [List.filter_nil, List.map_nil, List.sum_nil]
    apply List.sum_eq_zero
    intro x hx
    obtain ⟨k, -, hkx⟩ := List.mem_map.mp hx
    exact hkx.symm
  | cons a t ih =>
    have hcov' : ∀ r ∈ t, key r ∈ keys := fun r hr =>
      hcov r (List.mem_cons_of_mem a hr)
    have hstep : ∀ k : String,
        ((((a :: t).filter (fun r => key r = k)).map Row.amount).sum) =
        (if key a = k then a.amount else 0) +
          ((t.filter (fun r => key r = k)).map Row.amount).sum := by
      intro k
      by_cases hk : key a = k
      · simp [List.filter_cons, hk]
      · simp [List.filter_cons, hk]
    calc (keys.map (fun k =>
          (((a :: t).filter (fun r => key r = k)).map Row.amount).sum)).sum
        = (keys.map (fun k => (if key a = k then a.amount else 0) +
            ((t.filter (fun r => key r = k)).map Row.amount).sum)).sum := by
          exact congrArg List.sum (List.map_congr_left (fun k _ => hstep k))
      _ = (keys.map (fun k => if key a = k then a.amount else 0)).sum +
            (keys.map (fun k =>
              ((t.filter (fun r => key r = k)).map Row.amount).sum)).sum :=
          sum_map_add_distrib keys _ _
      _ = a.amount + (t.map Row.amount).sum := by
          rw [sum_map_single keys (key a) a.amount hnd
            (hcov a (List.mem_cons_self a t)), ih hcov']
      _ = ((a :: t).map Row.amount).sum := by simp

/-- C8: for every record set, the per-category breakdown sums to the
total amount and so does the per-payment-method breakdown, and each
breakdown's keys are exactly the categories / payment methods present in
the set. -/
theorem breakdown_sums (rows : List Row) :
    ((cat_spending rows).map Prod.snd).sum = total_expense rows ∧
    ((payment_spending rows).map Prod.snd).sum = total_expense rows ∧
    (∀ k, k ∈ (cat_spending rows).map Prod.fst ↔
      k ∈ rows.map Row.category) ∧
    (∀ k, k ∈ (payment_spending rows).map Prod.fst ↔
      k ∈ rows.map Row.payment_method) := by
  refine ⟨?_, ?_, ?_, ?_⟩
  · rw [cat_spending, List.map_map]
    exact sum_over_groups rows Row.category (groupKeys rows Row.category)
      (List.nodup_dedup _) (fun r hr =>
        List.mem_dedup.mpr (List.mem_map_of_mem Row.category hr))
  · rw [payment_spending, List.map_map]
    exact sum_over_groups rows Row.payment_method
      (groupKeys rows Row.payment_method)
      (List.nodup_dedup _) (fun r hr =>
        List.mem_dedup.mpr (List.mem_map_of_mem Row.payment_method hr))
  · intro k
    rw [cat_spending, List.map_map]
    simp [groupKeys, Function.comp_def]
  · intro k
    rw [payment_spending, List.map_map]
    simp [groupKeys, Function.comp_def]

/-- C8 witness: `breakdown_sums` at a concrete three-record set. -/
theorem breakdown_sums_witness :
    ((cat_spending
      [⟨1, "2024-01-05", 100000, "", "현금", false, "생활비", "#95A5A6", 200000, none⟩,
       ⟨2, "2024-01-10", 50000, "", "신용카드", false, "교통비", "#96CEB4", 100000, none⟩,
       ⟨3, "2024-01-20", 200000, "", "현금", false, "생활비", "#95A5A6", 200000, none⟩]).map
      Prod.snd).sum =
    total_expense
      [⟨1, "2024-01-05", 100000, "", "현금", false, "생활비", "#95A5A6", 200000, none⟩,
       ⟨2, "2024-01-10", 50000, "", "신용카드", false, "교통비", "#96CEB4", 100000, none⟩,
       ⟨3, "2024-01-20", 200000, "", "현금", false, "생활비", "#95A5A6", 200000, none⟩] :=
  (breakdown_sums _).1

/-- The category name a `category_id` resolves to. -/
def categoryName (cats : List Category) (cid : Nat) : Option String :=
  (cats.find? (fun c => c.id = cid)).map Category.name

/-- The state after running the seeding operation twice from an empty
store. -/
def init_db_twice : DB := init_db (init_db emptyDB)

lemma DB.eq_of_fields {a b : DB} (h1 : a.categories = b.categories)
    (h2 : a.subcategories = b.subcategories)
    (h3 : a.expenses = b.expenses) : a = b := by
  cases a
  cases b
  simp_all

lemma init_db_categories (db : DB) :
    (init_db db).categories =
      if db.categories.length = 0 then seedCategories db.categories
      else db.categories := rfl

lemma init_db_subcategories (db : DB) :
    (init_db db).subcategories =
      if db.subcategories.length = 0 then
        seedSubcategories
          (if db.categories.length = 0 then seedCategories db.categories
           else db.categories)
          db.subcategories
      else db.subcategories := rfl

lemma init_db_expenses (db : DB) : (init_db db).expenses = db.expenses := rfl

lemma init_db_cats_ne_nil (db : DB) : (init_db db).categories ≠ [] := by
  rw [init_db_categories]
  by_cases hc : db.categories.length = 0
  · rw [if_pos hc, List.length_eq_zero.mp hc]
    decide
  · rw [if_neg hc]
    intro h
    rw [h] at hc
    exact hc rfl

lemma init_db_cats_idem (db : DB) :
    (init_db (init_db db)).categories = (init_db db).categories := by
  rw [init_db_categories (init_db db)]
  exact if_neg (fun h => init_db_cats_ne_nil db (List.length_eq_zero.mp h))

lemma init_db_subs_idem (db : DB) :
    (init_db (init_db db)).subcategories = (init_db db).subcategories := by
  rw [init_db_subcategories (init_db db)]
  by_cases h2 : (init_db db).subcategories.length = 0
  · rw [if_pos h2]
    have h2' : (init_db db).subcategories = [] := List.length_eq_zero.mp h2
    have hC : (if (init_db db).categories.length = 0 then
        seedCategories (init_db db).categories
        else (init_db db).categories) = (init_db db).categories :=
      if_neg (fun h => init_db_cats_ne_nil db (List.length_eq_zero.mp h))
    rw [h2', hC]
    by_cases hs : db.subcategories.length = 0
    · have : seedSubcategories (init_db db).categories [] =
          (init_db db).subcategories := by
        rw [init_db_subcategories db, if_pos hs, List.length_eq_zero.mp hs,
          init_db_categories db]
      rw [this, h2']
    · exfalso
      have : (init_db db).subcategories = db.subcategories := by
        rw [init_db_subcategories db, if_neg hs]
      rw [this] at h2'
      rw [h2'] at hs
      exact hs rfl
  · rw [if_neg h2]

/-- C6: the default seeding in `init_db` inserts the default categories
only when the categories table is empty and the default subcategories
only when the subcategories table is empty; running it twice in
succession is the same as running it once, and from the empty store two
runs leave exactly one row per default category name and exactly one row
per default (category, subcategory-name) pair. -/
theorem init_db_seeding_idempotent :
    (∀ db, init_db (init_db db) = init_db db) ∧
    (∀ db, db.categories ≠ [] → (init_db db).categories = db.categories) ∧
    (∀ db, db.subcategories ≠ [] →
      (init_db db).subcategories = db.subcategories) ∧
    ((default_categories.all (fun entry =>
      (init_db_twice.categories.filter
        (fun c => c.name = entry.1)).length = 1)) = true) ∧
    ((default_subcategories.all (fun entry => entry.2.all (fun nm =>
      (init_db_twice.subcategories.filter (fun s =>
        s.name = nm ∧
        categoryName init_db_twice.categories s.category_id =
          some entry.1)).length = 1))) = true) := by
  refine ⟨?_, ?_, ?_, by decide, by decide⟩
  · intro db
    exact DB.eq_of_fields (init_db_cats_idem db) (init_db_subs_idem db) rfl
  · intro db h
    rw [init_db_categories, if_neg (fun hc =>
      h (List.length_eq_zero.mp hc))]
  · intro db h
    rw [init_db_subcategories, if_neg (fun hs =>
      h (List.length_eq_zero.mp hs))]

/-- C6 witness: `init_db_seeding_idempotent` on a store whose tables are
already populated — seeding inserts nothing. -/
theorem init_db_seeding_idempotent_witness :
    (init_db ⟨[⟨1, "X", 0, "c"⟩], [⟨1, 1, "Y"⟩], []⟩).categories =
      [⟨1, "X", 0, "c"⟩] :=
  init_db_seeding_idempotent.2.1 ⟨[⟨1, "X", 0, "c"⟩], [⟨1, 1, "Y"⟩], []⟩
    (by decide)

lemma mem_joinRows_id {db : DB} {e : Expense} {r : Row}
    (h : r ∈ joinRows db e) : r.id = e.id := by
  unfold joinRows at h
  obtain ⟨c, -, hr⟩ := List.mem_flatMap.mp h
  obtain ⟨os, -, hos⟩ := List.mem_map.mp hr
  rw [← hos]
  rfl

lemma subJoin_eq_single_none {db : DB} {e : Expense}
    (hs : ∀ s ∈ db.subcategories, some s.id ≠ e.subcategory_id) :
    subJoin db e = [none] := by
  unfold subJoin
  cases hsid : e.subcategory_id with
  | none => rfl
  | some sid =>
    have hf : db.subcategories.filter (fun s => s.id = sid) = [] := by
      rw [List.filter_eq_nil_iff]
      intro s hmem
      have := hs s hmem
      rw [hsid] at this
      simpa using this
    show (match db.subcategories.filter (fun s => s.id = sid) with
          | [] => [none]
          | ms => ms.map (fun s => some s.name)) = [none]
    rw [hf]

lemma mem_sqlJoin_of_expense {db : DB} {e : Expense} {r : Row}
    (he : e ∈ db.expenses) (hr : r ∈ joinRows db e) : r ∈ sqlJoin db :=
  List.mem_flatMap.mpr ⟨e, he, hr⟩

/-- C10: for every stored state whose expense ids are distinct (the
primary-key invariant) and every stored expense record: if no category
row matches the record's `category_id`, the record contributes no row to
`get_expenses` (it is silently omitted, not an error); if exactly one
category row matches and the record's `subcategory_id` is NULL or
matches no subcategory row, the record still appears — as exactly the
row with a NULL (`none`) subcategory name. -/
theorem get_expenses_join_semantics (db : DB) (e : Expense)
    (he : e ∈ db.expenses)
    (hnd : (db.expenses.map Expense.id).Nodup) :
    ((∀ c ∈ db.categories, c.id ≠ e.category_id) →
      ∀ r ∈ get_expenses db, r.id ≠ e.id) ∧
    (∀ c : Category,
      db.categories.filter (fun c' => c'.id = e.category_id) = [c] →
      (∀ s ∈ db.subcategories, some s.id ≠ e.subcategory_id) →
      (mkRow e c none ∈ get_expenses db ∧
        ∀ r ∈ get_expenses db, r.id = e.id → r = mkRow e c none)) := by
  have hperm : (get_expenses db).Perm (sqlJoin db) :=
    List.perm_insertionSort _ _
  have hsource : ∀ r ∈ sqlJoin db, r.id = e.id → r ∈ joinRows db e := by
    intro r hr hid
    obtain ⟨e', he', hre'⟩ := List.mem_flatMap.mp hr
    have : e' = e :=
      List.inj_on_of_nodup_map hnd he' he ((mem_joinRows_id hre').symm.trans hid ▸ rfl)
    rw [← this]
    exact hre'
  constructor
  · intro hc r hr hid
    have hrs : r ∈ sqlJoin db := hperm.mem_iff.mp hr
    have hrj : r ∈ joinRows db e := hsource r hrs hid
    have hnil : db.categories.filter (fun c => c.id = e.category_id) = [] := by
      rw [List.filter_eq_nil_iff]
      intro c hmem
      simpa using hc c hmem
    rw [joinRows, hnil] at hrj
    simp at hrj
  · intro c hfilter hs
    have hjoin : joinRows db e = [mkRow e c none] := by
      rw [joinRows, hfilter, subJoin_eq_single_none hs]
      rfl
    constructor
    · apply hperm.mem_iff.mpr
      apply mem_sqlJoin_of_expense he
      rw [hjoin]
      exact List.mem_singleton.mpr rfl
    · intro r hr hid
      have hrj : r ∈ joinRows db e :=
        hsource r (hperm.mem_iff.mp hr) hid
      rw [hjoin] at hrj
      exact List.mem_singleton.mp hrj

/-- C10 witness: `get_expenses_join_semantics` at a one-record store
whose expense has a valid category and a dangling `subcategory_id = 7`:
the record appears in the listing with a `none` subcategory name. -/
theorem get_expenses_join_semantics_witness :
    mkRow ⟨2, "2024-01-06", 1, some 7, 50, "", "현금", false⟩
        ⟨1, "생활비", 200000, "#95A5A6"⟩ none ∈
      get_expenses ⟨[⟨1, "생활비", 200000, "#95A5A6"⟩], [⟨1, 1, "식비"⟩],
        [⟨2, "2024-01-06", 1, some 7, 50, "", "현금", false⟩]⟩ :=
  ((get_expenses_join_semantics
      ⟨[⟨1, "생활비", 200000, "#95A5A6"⟩], [⟨1, 1, "식비"⟩],
       [⟨2, "2024-01-06", 1, some 7, 50, "", "현금", false⟩]⟩
      ⟨2, "2024-01-06", 1, some 7, 50, "", "현금", false⟩
      (by decide) (by decide)).2
    ⟨1, "생활비", 200000, "#95A5A6"⟩ (by decide) (by decide)).1

end ExpenseNote
